import Mathlib

/-!
# Verification of the OpenHamClock server core (`src/server.js`)

This file gives a shallow embedding, in Lean 4, of the algorithmic core of
`src/server.js`:

* the multi-source DX-cluster spot aggregator (`GET /api/dxcluster/spots`)
  with its three per-source parsers (HamQTH `^`-delimited text, DX Summit
  JSON, DXHeat JSON);
* the space-weather snapshot of `GET /api/propagation` (solar flux,
  derived sunspot number, K-index, with defaults);
* the propagation estimator (`calculateBandReliability`, `calculateSNR`,
  `getStatus`, `isDaytime`) and the 24-hour prediction / current-band
  construction of `GET /api/propagation`.

Strings from the JavaScript side are modelled as `List Char` during
processing (the final `Spot` records carry `String` fields); JavaScript
numbers are modelled as exact rationals `ℚ` where the source manipulates
parsed data, and as real numbers `ℝ` in the propagation estimator, whose
formulas use `sqrt`, `cos` and `π`.  JavaScript builtins that the source
relies on (`parseFloat`, `parseInt`, `Number.prototype.toFixed`,
`Math.round`, `%` on numbers, `String.prototype.split/trim/substring`)
are modelled by the `js*`-prefixed definitions below, faithful to their
ECMAScript semantics on the decimal inputs this server processes
(exponent notation, `Infinity` and hexadecimal prefixes are outside the
model).
-/

/-! ## JavaScript string primitives (over `List Char`) -/

/-- Characters treated as whitespace by `trim`/`parseFloat`/`parseInt`. -/
def isWsChar (c : Char) : Bool :=
  c = ' ' || c = '\t' || c = '\n' || c = '\r'

/-- Drop leading whitespace. -/
def trimLeft : List Char → List Char
  | [] => []
  | c :: cs => if isWsChar c then trimLeft cs else c :: cs

/-- JavaScript `String.prototype.trim` (both ends). -/
def jsTrim (l : List Char) : List Char :=
  (trimLeft (trimLeft l.reverse)).reverse

/-- Auxiliary splitter: accumulates the current field (reversed). -/
def splitChAux (sep : Char) : List Char → List Char → List (List Char)
  | [], acc => [acc.reverse]
  | c :: cs, acc =>
    if c = sep then acc.reverse :: splitChAux sep cs []
    else splitChAux sep cs (c :: acc)

/-- JavaScript `String.prototype.split` with a single-character separator:
`"a^^b".split('^') = ["a","","b"]`, `"".split('^') = [""]`. -/
def splitCh (sep : Char) (l : List Char) : List (List Char) :=
  splitChAux sep l []

/-- JavaScript `line.startsWith('#')`. -/
def startsWithHash : List Char → Bool
  | '#' :: _ => true
  | _ => false

/-! ## JavaScript numeric primitives -/

/-- Value of a decimal digit character, if it is one. -/
def digitVal (c : Char) : Option ℕ :=
  if '0' ≤ c ∧ c ≤ '9' then some (c.toNat - '0'.toNat) else none

/-- Consume a maximal run of decimal digits, returning
(accumulated value, number of digits, rest). -/
def takeDigits : List Char → ℕ → ℕ → ℕ × ℕ × List Char
  | [], v, n => (v, n, [])
  | c :: cs, v, n =>
    match digitVal c with
    | some d => takeDigits cs (v * 10 + d) (n + 1)
    | none => (v, n, c :: cs)

/-- Optional leading sign; returns the sign as `ℤ` and the rest. -/
def takeSign : List Char → ℤ × List Char
  | '+' :: cs => (1, cs)
  | '-' :: cs => (-1, cs)
  | l => (1, l)

/-- JavaScript `parseFloat` on a decimal literal (optionally signed,
optional fractional part); `none` models `NaN`.  Exponent notation and
`Infinity` are outside the model (the upstream feeds use plain decimals
such as `"7022.0"`). -/
def jsParseFloat (l : List Char) : Option ℚ :=
  let s := takeSign (trimLeft l)
  let d := takeDigits s.2 0 0
  match d.2.2 with
  | '.' :: r2 =>
    let f := takeDigits r2 0 0
    if d.2.1 + f.2.1 = 0 then none
    else some ((s.1 : ℚ) * ((d.1 : ℚ) + (f.1 : ℚ) / (10 : ℚ) ^ f.2.1))
  | _ => if d.2.1 = 0 then none else some ((s.1 : ℚ) * (d.1 : ℚ))

/-- JavaScript `parseInt` (radix 10) on a decimal prefix; `none` models
`NaN`. -/
def jsParseInt (l : List Char) : Option ℤ :=
  let s := takeSign (trimLeft l)
  let d := takeDigits s.2 0 0
  if d.2.1 = 0 then none else some (s.1 * (d.1 : ℤ))

/-- JavaScript `Math.round` on an exact rational: half-way cases round
toward `+∞`. -/
def jsRoundQ (q : ℚ) : ℤ := ⌊q + 1 / 2⌋

/-- Decimal digit character for `n ≤ 9`. -/
def digitChar : ℕ → Char
  | 0 => '0' | 1 => '1' | 2 => '2' | 3 => '3' | 4 => '4'
  | 5 => '5' | 6 => '6' | 7 => '7' | 8 => '8' | 9 => '9'
  | _ => '?'

/-- Decimal rendering of a natural number (fuel-structured so that it
reduces definitionally). -/
def natCharsAux : ℕ → ℕ → List Char
  | 0, _ => []
  | fuel + 1, n =>
    if n < 10 then [digitChar n]
    else natCharsAux fuel (n / 10) ++ [digitChar (n % 10)]

/-- Decimal rendering of a natural number as a `String`. -/
def natStr (n : ℕ) : String := ⟨natCharsAux (n + 1) n⟩

/-- Left-pad to three digits. -/
def pad3 (n : ℕ) : String :=
  if n < 10 then "00" ++ natStr n
  else if n < 100 then "0" ++ natStr n
  else natStr n

/-- JavaScript `x.toFixed(3)` for a non-negative exact rational `x`:
round `x·1000` half-up to an integer `n` and print `n/1000` with exactly
three decimals. -/
def fmtFixed3 (q : ℚ) : String :=
  let n : ℕ := (⌊q * 1000 + 1 / 2⌋).toNat
  natStr (n / 1000) ++ "." ++ pad3 (n % 1000)

/-! ## The normalized Spot record -/

/-- A normalized DX spot, exactly the object shape pushed by the three
parsers in `GET /api/dxcluster/spots`. -/
structure Spot where
  freq : String
  call : String
  comment : String
  time : String
  spotter : String
  deriving DecidableEq

/-! ## Source 1: the HamQTH `^`-delimited parser
(`src/server.js` lines 139–180) -/

/-- One iteration of the HamQTH parsing loop: split the line on `'^'`,
require at least 5 fields, parse the kHz frequency, and emit a spot when
the frequency is a positive number and the DX callsign is non-empty.
`parts[i] || ''` is modelled by `(parts.get? i).getD []` (both yield the
empty string for a missing or empty field). -/
def hamqthLineSpot (line : List Char) : Option Spot :=
  let parts := splitCh '^' line
  if parts.length ≥ 5 then
    let spotter := (parts.get? 0).getD []
    let freqKhz := (parts.get? 1).getD []
    let dxCall := (parts.get? 2).getD []
    let comment := (parts.get? 3).getD []
    let timeDate := (parts.get? 4).getD []
    let band := (parts.get? 9).getD []
    match jsParseFloat freqKhz with
    | some freqNum =>
      if 0 < freqNum ∧ dxCall ≠ [] then
        some
          { freq := fmtFixed3 (freqNum / 1000)
            call := ⟨dxCall⟩
            comment := ⟨comment⟩ ++ (if band ≠ [] then " " ++ (⟨band⟩ : String) else "")
            time :=
              if timeDate.length ≥ 4 then
                (⟨timeDate.take 2⟩ : String) ++ ":" ++ (⟨(timeDate.drop 2).take 2⟩ : String) ++ "z"
              else ""
            spotter := ⟨spotter⟩ }
      else none
    | none => none
  else none

/-- The HamQTH parsing stage: trim the body, split into lines, keep
non-blank lines not starting with `'#'`, consider at most the first 25,
and run the per-line parser on each. -/
def hamqthParse (text : List Char) : List Spot :=
  let lines := (splitCh '\n' (jsTrim text)).filter
    (fun l => jsTrim l ≠ [] ∧ startsWithHash l = false)
  (lines.take 25).filterMap hamqthLineSpot

/-- The sample line that appears verbatim in the source's comment. -/
def hamqthSampleLine : String :=
  "F5PAC^7022.0^KP5/NP3VI^Up 2^0610 2026-01-30^^^NA^40M^Desecheo Island^43"

/-- `parseFloat("7022.0") = 7022`. -/
lemma jsParseFloat_sample : jsParseFloat "7022.0".data = some 7022 := by
  have h2 : takeSign (trimLeft "7022.0".data) = (1, "7022.0".data) := by decide
  have h : takeDigits "7022.0".data 0 0 = (7022, 4, ['.', '0']) := by decide
  have h3 : takeDigits ['0'] 0 0 = (0, 1, []) := by decide
  rw [jsParseFloat, h2]
  simp only [h, h3]
  norm_num

/-- `(7022/1000).toFixed(3) = "7.022"`. -/
lemma fmtFixed3_sample : fmtFixed3 ((7022 : ℚ) / 1000) = "7.022" := by
  have h : (⌊(7022 : ℚ) / 1000 * 1000 + 1 / 2⌋) = 7022 := by norm_num
  rw [fmtFixed3, h]
  decide

/-- Evaluation of the per-line HamQTH parser on the source comment's
sample line.  The code appends `parts[9]` to the comment, which for this
line is the *country* field `"Desecheo Island"` (the band `"40M"` sits
at index 8), so the emitted comment is `"Up 2 Desecheo Island"`. -/
lemma hamqthLineSpot_sample :
    hamqthLineSpot hamqthSampleLine.data =
      some { freq := "7.022", call := "KP5/NP3VI", comment := "Up 2 Desecheo Island",
             time := "06:10z", spotter := "F5PAC" } := by
  have hparts : splitCh '^' hamqthSampleLine.data =
      ["F5PAC".data, "7022.0".data, "KP5/NP3VI".data, "Up 2".data,
       "0610 2026-01-30".data, [], [], "NA".data, "40M".data,
       "Desecheo Island".data, "43".data] := by decide
  have hfl : jsParseFloat ['7', '0', '2', '2', '.', '0'] = some 7022 := jsParseFloat_sample
  have hcond : (0 : ℚ) < 7022 ∧ ['K', 'P', '5', '/', 'N', 'P', '3', 'V', 'I'] ≠ [] :=
    ⟨by norm_num, by decide⟩
  rw [hamqthLineSpot, hparts]
  simp only [List.length_cons, List.length_nil, List.get?_eq_getElem?, List.getElem?_cons_zero,
    List.getElem?_cons_succ, Option.getD_some, hfl]
  rw [if_pos hcond, fmtFixed3_sample]
  decide

/-- Evaluation of the whole HamQTH parsing stage on a body consisting of
the sample line. -/
lemma hamqthParse_sampleLine :
    hamqthParse hamqthSampleLine.data =
      [{ freq := "7.022", call := "KP5/NP3VI", comment := "Up 2 Desecheo Island",
         time := "06:10z", spotter := "F5PAC" }] := by
  have hline : (splitCh '\n' (jsTrim hamqthSampleLine.data)).filter
      (fun l => jsTrim l ≠ [] ∧ startsWithHash l = false) = [hamqthSampleLine.data] := by
    decide
  rw [hamqthParse, hline]
  show List.filterMap hamqthLineSpot [hamqthSampleLine.data] = _
  rw [List.filterMap, hamqthLineSpot_sample]
  rfl


/-! ## Source 2: DX Summit JSON mapping (`src/server.js` lines 218–229) -/

/-- JavaScript `a || b` for an optional string field: a missing field and
an empty string are both falsy. -/
def jsStrOr (o : Option String) (d : String) : String :=
  match o with
  | some s => if s = "" then d else s
  | none => d

/-- A DX Summit record after `JSON.parse`, with exactly the optional
fields the mapping reads. -/
structure DxSummitRec where
  frequency : Option ℚ := none
  dx_call : Option String := none
  dxcall : Option String := none
  callsign : Option String := none
  info : Option String := none
  comment : Option String := none
  time : Option String := none
  spotter : Option String := none
  de : Option String := none
  deriving DecidableEq

/-- Rendering of a JavaScript number by `String(...)`.  Only its use on
truthy (nonzero) frequencies matters here and no theorem depends on the
exact digits, so the `Rat` printing is used as a stand-in. -/
def jsNumberToString (q : ℚ) : String := toString q

/-- The DX Summit record-to-spot mapping:
`freq: spot.frequency ? String(spot.frequency) : '0.000'` (so a falsy —
absent or zero — frequency becomes the sentinel `"0.000"`),
`call: spot.dx_call || spot.dxcall || spot.callsign || 'UNKNOWN'`, etc. -/
def dxSummitSpot (r : DxSummitRec) : Spot :=
  { freq :=
      match r.frequency with
      | some f => if f = 0 then "0.000" else jsNumberToString f
      | none => "0.000"
    call := jsStrOr r.dx_call (jsStrOr r.dxcall (jsStrOr r.callsign "UNKNOWN"))
    comment := jsStrOr r.info (jsStrOr r.comment "")
    time :=
      match r.time with
      | some t => if t = "" then "" else ⟨t.data.take 5⟩ ++ "z"
      | none => ""
    spotter := jsStrOr r.spotter (jsStrOr r.de "") }

/-- `data.slice(0, 20).map(...)` for DX Summit. -/
def dxSummitMap (recs : List DxSummitRec) : List Spot :=
  (recs.take 20).map dxSummitSpot

/-! ## Source 3: DXHeat JSON mapping (`src/server.js` lines 259–271) -/

/-- A DXHeat record after `JSON.parse`.  The upstream mixes numbers and
strings; all fields are modelled as optional strings (the mapping only
forwards them). -/
structure DxHeatRec where
  f : Option String := none
  frequency : Option String := none
  c : Option String := none
  dx : Option String := none
  callsign : Option String := none
  i : Option String := none
  info : Option String := none
  t : Option String := none
  s : Option String := none
  spotter : Option String := none
  deriving DecidableEq

/-- The DXHeat record-to-spot mapping:
`freq: spot.f || spot.frequency || '0.000'`,
`call: spot.c || spot.dx || spot.callsign || 'UNKNOWN'`,
`time: spot.t ? String(spot.t).substring(11,16)+'z' : ''`. -/
def dxHeatSpot (r : DxHeatRec) : Spot :=
  { freq := jsStrOr r.f (jsStrOr r.frequency "0.000")
    call := jsStrOr r.c (jsStrOr r.dx (jsStrOr r.callsign "UNKNOWN"))
    comment := jsStrOr r.i (jsStrOr r.info "")
    time :=
      match r.t with
      | some t => if t = "" then "" else ⟨(t.data.drop 11).take 5⟩ ++ "z"
      | none => ""
    spotter := jsStrOr r.s (jsStrOr r.spotter "") }

/-- `spots.slice(0, 20).map(...)` for DXHeat. -/
def dxHeatMap (recs : List DxHeatRec) : List Spot :=
  (recs.take 20).map dxHeatSpot

/-! ## The spot aggregator (`GET /api/dxcluster/spots`, lines 119–283)

Each source attempt is driven by I/O whose outcome is an input of the
model:

* HamQTH: `Fetch String` — `fail` covers a thrown fetch/timeout error
  and a non-2xx response (both fall through without parsing), `ok text`
  a 2xx body.
* DX Summit: `Fetch (Option (List DxSummitRec))` — the inner `Option` is
  the `JSON.parse` outcome, where `none` covers both a parse error and a
  non-array value (`Array.isArray(data)` false); both fall through.
* DXHeat: `Fetch (Option HeatPayload)` — the payload is either a bare
  array, an object with a truthy `spots` array, or anything else
  (`data.spots || data` not an array). -/
inductive Fetch (α : Type) where
  | fail : Fetch α
  | ok : α → Fetch α

/-- The shape of a parsed DXHeat payload, as consumed by
`const spots = data.spots || data`. -/
inductive HeatPayload where
  | arr : List DxHeatRec → HeatPayload
  | objSpots : List DxHeatRec → HeatPayload
  | other : HeatPayload

/-- `data.spots || data`, then `Array.isArray(spots)`. -/
def heatList : HeatPayload → Option (List DxHeatRec)
  | .arr l => some l
  | .objSpots l => some l
  | .other => none

/-- The handler from the DXHeat attempt on (lines 239–282): return the
mapped spots when `data.spots || data` is a non-empty array, otherwise
fall through to the final `res.json([])`. -/
def dxclusterTail3 (x : Fetch (Option HeatPayload)) : List Spot :=
  match x with
  | .ok (some p) =>
    match heatList p with
    | some l => if l.isEmpty then [] else dxHeatMap l
    | none => []
  | _ => []

/-- The handler from the DX Summit attempt on (lines 195–282): return
the mapped spots when the payload is a non-empty array, otherwise fall
through to the DXHeat attempt. -/
def dxclusterTail2 (d : Fetch (Option (List DxSummitRec)))
    (x : Fetch (Option HeatPayload)) : List Spot :=
  match d with
  | .ok (some recs) => if recs.isEmpty then dxclusterTail3 x else dxSummitMap recs
  | _ => dxclusterTail3 x

/-- The full `GET /api/dxcluster/spots` handler body (lines 119–283):
the HamQTH attempt with early `return res.json(spots)` on a non-empty
parse, falling through to the DX Summit and DXHeat attempts. -/
def dxclusterSpots (h : Fetch String) (d : Fetch (Option (List DxSummitRec)))
    (x : Fetch (Option HeatPayload)) : List Spot :=
  match h with
  | .ok text =>
    let spots := hamqthParse text.data
    if spots.isEmpty then dxclusterTail2 d x else spots
  | .fail => dxclusterTail2 d x

/-! ## The space-weather snapshot (`GET /api/propagation`, lines 296–316)

`Promise.allSettled` isolates the two fetches, so a failed fetch never
throws; the model input `none` stands for a rejected promise or a
non-`ok` response, and `some data` for a successfully parsed JSON body.
(The only way to keep the initial `ssn = 100` would be an exception
thrown *inside* the `try` block, e.g. by `.json()` on a malformed body;
that path is not a fetch failure and is outside the model.)  Flux
entries are modelled by their optional `flux` field; K-index rows by
their list of string cells. -/

structure SolarData where
  sfi : ℤ
  ssn : ℤ
  kIndex : ℤ
  deriving DecidableEq

/-- `sfi = Math.round(data[data.length - 1].flux || 150)`, guarded by
`if (data?.length)`; a missing or zero (falsy) `flux` falls back to
`150`. -/
def extractSfi (data : List (Option ℚ)) : ℤ :=
  if data.length ≠ 0 then
    match data.getLast? with
    | some e => jsRoundQ (match e with | some f => if f = 0 then 150 else f | none => 150)
    | none => 150
  else 150

/-- `kIndex = parseInt(data[data.length - 1][1]) || 2`, guarded by
`if (data?.length > 1)`; `parseInt` returning `NaN` (modelled `none`) or
`0` are both falsy and yield the default `2`. -/
def extractK (data : List (List String)) : ℤ :=
  if data.length > 1 then
    match data.getLast? with
    | some row =>
      match jsParseInt ((row.get? 1).getD "").data with
      | some n => if n = 0 then 2 else n
      | none => 2
    | none => 2
  else 2

/-- The solar-data block of `GET /api/propagation`: defaults
`sfi = 150, kIndex = 2`, each live fetch contributing its field on
success, and `ssn = Math.max(0, Math.round((sfi - 67) / 0.97))` always
recomputed from whichever `sfi` is in effect (the initial `ssn = 100` is
dead on every non-throwing path). -/
def computeSolarData (fluxRes : Option (List (Option ℚ)))
    (kRes : Option (List (List String))) : SolarData :=
  let sfi : ℤ := match fluxRes with | some data => extractSfi data | none => 150
  let kIndex : ℤ := match kRes with | some data => extractK data | none => 2
  let ssn : ℤ := max 0 (jsRoundQ (((sfi : ℚ) - 67) / (97 / 100)))
  ⟨sfi, ssn, kIndex⟩

/-- With both fetches failed, `ssn` is still recomputed from the default
`sfi = 150`: `max(0, round(83/0.97)) = 86`, not the initial `100`. -/
lemma computeSolarData_none_none : computeSolarData none none = ⟨150, 86, 2⟩ := by
  have h : jsRoundQ ((((150 : ℤ) : ℚ) - 67) / (97 / 100)) = 86 := by
    rw [jsRoundQ]; norm_num
  rw [computeSolarData]
  simp only [h]
  rfl

/-! ## The propagation estimator (`src/server.js` lines 388–465)

The estimator's arithmetic (`Math.sqrt`, `Math.cos`, `Math.PI`, `%`) is
modelled over the real numbers. -/

/-- JavaScript truncation toward zero (the `q` of the `%` operator). -/
noncomputable def jsTrunc (x : ℝ) : ℝ :=
  if 0 ≤ x then (⌊x⌋ : ℤ) else (⌈x⌉ : ℤ)

/-- JavaScript `%` on numbers: remainder with the dividend's sign. -/
noncomputable def jsMod (a b : ℝ) : ℝ := a - b * jsTrunc (a / b)

/-- `isDaytime(utcHour, longitude)`:
`localHour = (utcHour + longitude/15 + 24) % 24` lies in `[6, 18]`. -/
noncomputable def isDaytime (utcHour longitude : ℝ) : Prop :=
  6 ≤ jsMod (utcHour + longitude / 15 + 24) 24 ∧
    jsMod (utcHour + longitude / 15 + 24) 24 ≤ 18

noncomputable instance (utcHour longitude : ℝ) : Decidable (isDaytime utcHour longitude) :=
  instDecidableAnd

/-- `hourFactor = 1 + 0.4 * Math.cos((hour - 12) * Math.PI / 12)`. -/
noncomputable def hourFactor (hour : ℝ) : ℝ :=
  1 + 0.4 * Real.cos ((hour - 12) * Real.pi / 12)

/-- `foF2 = 0.9 * Math.sqrt(ssn + 15) * hourFactor`. -/
noncomputable def foF2 (ssn hour : ℝ) : ℝ :=
  0.9 * Real.sqrt (ssn + 15) * hourFactor hour

/-- `muf = foF2 * distFactor * latFactor * 3.5` with
`distFactor = Math.sqrt(1 + distance/3500)` and
`latFactor = 1 - Math.abs(midLat)/200`. -/
noncomputable def mufOf (ssn hour distance midLat : ℝ) : ℝ :=
  foF2 ssn hour * Real.sqrt (1 + distance / 3500) * (1 - |midLat| / 200) * 3.5

/-- `dayNight = isDaytime(hour, (de.lon + dx.lon)/2) ? 1.5 : 0.5`. -/
noncomputable def dayNightOf (hour deLon dxLon : ℝ) : ℝ :=
  if isDaytime hour ((deLon + dxLon) / 2) then 1.5 else 0.5

/-- `luf = 2 + (sfi/100) * dayNight + kIndex * 0.5`. -/
noncomputable def lufOf (sfi kIndex hour deLon dxLon : ℝ) : ℝ :=
  2 + sfi / 100 * dayNightOf hour deLon dxLon + kIndex * 0.5

/-- The three-branch base reliability (lines 412–425): above-MUF
penalty, below-LUF absorption penalty, else the midpoint reward. -/
noncomputable def baseReliability (freq muf luf : ℝ) : ℝ :=
  if freq > muf then max 0 (50 - (freq - muf) * 10)
  else if freq < luf then max 0 (50 - (luf - freq) * 15)
  else 50 + (1 - |freq - (muf + luf) / 2| / (muf - luf)) * 45

/-- K-index storm degradation (lines 428–430): only the highest matching
bracket fires. -/
noncomputable def stormAdjust (kIndex r : ℝ) : ℝ :=
  if kIndex ≥ 5 then r * 0.3
  else if kIndex ≥ 4 then r * 0.6
  else if kIndex ≥ 3 then r * 0.8
  else r

/-- Long-path degradation (lines 433–434). -/
noncomputable def distanceAdjust (distance r : ℝ) : ℝ :=
  if distance > 15000 then r * 0.7
  else if distance > 10000 then r * 0.85
  else r

/-- High-band solar dependency (lines 437–438): the two factors apply
cumulatively. -/
noncomputable def highBandAdjust (freq sfi r : ℝ) : ℝ :=
  let r1 := if freq ≥ 21 ∧ sfi < 100 then r * (sfi / 100) else r
  if freq ≥ 28 ∧ sfi < 120 then r1 * (sfi / 120) else r1

/-- `calculateBandReliability` (lines 388–441): the `de`/`dx` coordinate
objects enter only through their longitudes (for `isDaytime`), so the
model takes `deLon`/`dxLon`. -/
noncomputable def calculateBandReliability
    (freq distance midLat hour sfi ssn kIndex deLon dxLon : ℝ) : ℝ :=
  let muf := mufOf ssn hour distance midLat
  let luf := lufOf sfi kIndex hour deLon dxLon
  let reliability := baseReliability freq muf luf
  min 99 (max 0 (highBandAdjust freq sfi (distanceAdjust distance (stormAdjust kIndex reliability))))

/-- `calculateSNR` (lines 450–456), applied to the *unrounded*
reliability. -/
noncomputable def calculateSNR (reliability : ℝ) : String :=
  if reliability ≥ 80 then "+20dB"
  else if reliability ≥ 60 then "+10dB"
  else if reliability ≥ 40 then "0dB"
  else if reliability ≥ 20 then "-10dB"
  else "-20dB"

/-- `getStatus` (lines 459–465), applied to the *rounded* reliability. -/
noncomputable def getStatus (reliability : ℝ) : String :=
  if reliability ≥ 70 then "EXCELLENT"
  else if reliability ≥ 50 then "GOOD"
  else if reliability ≥ 30 then "FAIR"
  else if reliability ≥ 15 then "POOR"
  else "CLOSED"

/-- JavaScript `Math.round` on a real: half-way cases round toward
`+∞`. -/
noncomputable def jsRoundR (x : ℝ) : ℤ := ⌊x + 1 / 2⌋

/-- One entry of `predictions[band]`. -/
structure PredEntry where
  hour : ℕ
  reliability : ℤ
  snr : String

/-- The 24-hour prediction loop for one band frequency (lines 341–350):
`reliability` is the rounded value, `snr` is computed from the unrounded
value. -/
noncomputable def bandPredictions
    (freq distance midLat sfi ssn kIndex deLon dxLon : ℝ) : List PredEntry :=
  (List.range 24).map fun hour =>
    { hour := hour
      reliability := jsRoundR
        (calculateBandReliability freq distance midLat (hour : ℝ) sfi ssn kIndex deLon dxLon)
      snr := calculateSNR
        (calculateBandReliability freq distance midLat (hour : ℝ) sfi ssn kIndex deLon dxLon) }

/-- The fixed band enumeration (line 330). -/
def bandsList : List String :=
  ["160m", "80m", "40m", "30m", "20m", "17m", "15m", "12m", "10m", "6m"]

/-- The matching band frequencies in MHz (line 331). -/
noncomputable def bandFreqsList : List ℝ :=
  [1.8, 3.5, 7, 10, 14, 18, 21, 24, 28, 50]

/-- One entry of `currentBands` (lines 354–359). -/
structure BandSummary where
  band : String
  freq : ℝ
  reliability : ℤ
  snr : String
  status : String

/-- Stable insertion of `x` (an element earlier in the enumeration than
everything in `l`) into a list already sorted descending by
`reliability`: `x` goes before the first element whose reliability does
not exceed `x`'s, exactly where a stable sort with comparator
`(a, b) => b.reliability - a.reliability` keeps it. -/
def insertBS (x : BandSummary) : List BandSummary → List BandSummary
  | [] => [x]
  | y :: ys => if y.reliability ≤ x.reliability then x :: y :: ys else y :: insertBS x ys

/-- Stable descending sort by `reliability`.  ECMAScript's
`Array.prototype.sort` is stable and its result under the comparator
`(a, b) => b.reliability - a.reliability` is therefore *uniquely*
determined: it is this insertion sort. -/
def sortByReliability : List BandSummary → List BandSummary
  | [] => []
  | x :: xs => insertBS x (sortByReliability xs)

/-- `currentBands` (lines 354–360): one summary per band, taking the
`currentHour` entry of that band's predictions, sorted descending by
reliability.  (`currentHour` is `new Date().getUTCHours() ∈ 0..23`; the
`getD` default is never taken for those values.) -/
noncomputable def currentBands
    (currentHour : ℕ) (distance midLat sfi ssn kIndex deLon dxLon : ℝ) : List BandSummary :=
  sortByReliability <|
    (bandsList.zip bandFreqsList).map fun bf =>
      let e := ((bandPredictions bf.2 distance midLat sfi ssn kIndex deLon dxLon).get?
        currentHour).getD ⟨0, 0, ""⟩
      { band := bf.1, freq := bf.2, reliability := e.reliability, snr := e.snr,
        status := getStatus (e.reliability : ℝ) }

/-! ## Claim theorems: spot aggregation and parsing -/

/-- C3: evaluating the HamQTH parser at the spec's (and the source
comment's) own sample line.  The parser emits exactly one spot with
`freq = "7.022"`, `call = "KP5/NP3VI"`, `time = "06:10z"`,
`spotter = "F5PAC"` — but its comment is `"Up 2 Desecheo Island"`, not
the documented `"Up 2 40M"`: the code reads the band from `parts[9]`,
which by its own format comment
(`spotter^freq^dx_call^comment^time date^^^continent^band^country^id`)
is the *country* field; the band label `"40M"` sits at index 8. -/
theorem C3_hamqth_sample_line_behavior :
    hamqthParse hamqthSampleLine.data =
      [{ freq := "7.022", call := "KP5/NP3VI", comment := "Up 2 Desecheo Island",
         time := "06:10z", spotter := "F5PAC" }] :=
  hamqthParse_sampleLine

/-- C1 (counterexample): when both live fetches fail, the snapshot is
*not* the documented default `{sfi: 150, ssn: 100, kIndex: 2}` — the
`ssn = Math.max(0, Math.round((sfi - 67) / 0.97))` recomputation runs
unconditionally after the two `allSettled` checks, turning `ssn` into
`86`. -/
theorem C1_counterexample : computeSolarData none none ≠ ⟨150, 100, 2⟩ := by
  rw [computeSolarData_none_none]
  decide

/-- C1 (amended): when both live fetches fail the snapshot is
`{sfi: 150, ssn: 86, kIndex: 2}` (`ssn` recomputed from the default
`sfi`); on partial failure the succeeding field takes its live value,
the failing field its default, and `ssn` is recomputed as
`max(0, round((sfi − 67) / 0.97))` from whichever `sfi` is in
effect. -/
theorem C1_solar_snapshot :
    computeSolarData none none = ⟨150, 86, 2⟩ ∧
    (∀ kData, computeSolarData none (some kData) = ⟨150, 86, extractK kData⟩) ∧
    (∀ fluxData, computeSolarData (some fluxData) none =
      ⟨extractSfi fluxData,
       max 0 (jsRoundQ (((extractSfi fluxData : ℚ) - 67) / (97 / 100))), 2⟩) := by
  refine ⟨computeSolarData_none_none, fun kData => ?_, fun fluxData => rfl⟩
  have h : jsRoundQ ((((150 : ℤ) : ℚ) - 67) / (97 / 100)) = 86 := by
    rw [jsRoundQ]; norm_num
  rw [computeSolarData]
  simp only [h]
  rfl

/-- The second cell of the last row of a K-index series (the value the
code reads as `data[data.length - 1][1]`). -/
def lastRowSecond (kData : List (List String)) : String :=
  (kData.getLast?.map fun row => (row.get? 1).getD "").getD ""

/-- C10: if the K-index fetch succeeds but the last row's second cell
parses to `0` (or to no integer at all), `parseInt(...) || 2` yields the
default `2`; moreover no reachable snapshot ever carries `kIndex = 0`. -/
theorem C10_kindex_zero_never_reported :
    (∀ (fluxRes : Option (List (Option ℚ))) (kData : List (List String)),
        (jsParseInt (lastRowSecond kData).data = some 0 ∨
         jsParseInt (lastRowSecond kData).data = none) →
        (computeSolarData fluxRes (some kData)).kIndex = 2) ∧
    (∀ (fluxRes : Option (List (Option ℚ))) (kRes : Option (List (List String))),
        (computeSolarData fluxRes kRes).kIndex ≠ 0) := by
  constructor
  · intro fluxRes kData h
    show extractK kData = 2
    rw [extractK]
    split
    · cases hlast : kData.getLast? with
      | none => simp
      | some row =>
        have h' : jsParseInt ((row.get? 1).getD "").data = some 0 ∨
            jsParseInt ((row.get? 1).getD "").data = none := by
          simpa [lastRowSecond, hlast] using h
        show ((match jsParseInt ((row.get? 1).getD "").data with
          | some n => if n = 0 then 2 else n | none => 2 : ℤ)) = 2
        rcases h' with h' | h' <;> rw [h'] <;> rfl
    · rfl
  · intro fluxRes kRes
    have hK : ∀ data : List (List String), extractK data ≠ 0 := by
      intro data
      rw [extractK]
      split
      · split
        · split
          · split
            · decide
            · assumption
          · decide
        · decide
      · decide
    show ((match kRes with | some data => extractK data | none => 2 : ℤ)) ≠ 0
    match kRes with
    | none => decide
    | some data => exact hK data

/-- C10 witness: a concrete series whose last row reads `"0"`. -/
theorem C10_witness :
    (jsParseInt (lastRowSecond [["t", "1"], ["t", "0"]]).data = some 0 ∨
     jsParseInt (lastRowSecond [["t", "1"], ["t", "0"]]).data = none) ∧
    (computeSolarData none (some [["t", "1"], ["t", "0"]])).kIndex = 2 :=
  ⟨Or.inl (by decide),
   C10_kindex_zero_never_reported.1 none [["t", "1"], ["t", "0"]] (Or.inl (by decide))⟩

/-- Result of the HamQTH attempt alone (empty on fetch failure). -/
def source1Spots : Fetch String → List Spot
  | .ok text => hamqthParse text.data
  | .fail => []

/-- Result of the DX Summit attempt alone (empty on fetch/parse
failure, a non-array payload, or an empty array). -/
def source2Spots : Fetch (Option (List DxSummitRec)) → List Spot
  | .ok (some recs) => if recs.isEmpty then [] else dxSummitMap recs
  | _ => []

/-- Result of the DXHeat attempt alone. -/
def source3Spots : Fetch (Option HeatPayload) → List Spot
  | .ok (some p) =>
    match heatList p with
    | some l => if l.isEmpty then [] else dxHeatMap l
    | none => []
  | _ => []

/-- C2: the aggregator is exactly the first-non-empty chain over the
fixed source order HamQTH, DX Summit, DXHeat: the first source whose
fetch and parse yield a non-empty list is the response (independently of
the later sources' outcomes); empty or failed stages fall through; and
when all three are exhausted the response is `[]`, never an error. -/
theorem C2_first_success_wins :
    ∀ (h : Fetch String) (d : Fetch (Option (List DxSummitRec)))
      (x : Fetch (Option HeatPayload)),
      dxclusterSpots h d x =
        (if (source1Spots h).isEmpty then
          if (source2Spots d).isEmpty then
            if (source3Spots x).isEmpty then [] else source3Spots x
          else source2Spots d
        else source1Spots h) := by
  have t3 : ∀ x, dxclusterTail3 x = source3Spots x := by
    intro x
    match x with
    | .fail => rfl
    | .ok none => rfl
    | .ok (some p) => rfl
  have h3 : ∀ x, (if (source3Spots x).isEmpty then ([] : List Spot) else source3Spots x) =
      source3Spots x := by
    intro x
    split
    · next he => exact (List.isEmpty_iff.mp he).symm
    · rfl
  have t2 : ∀ d x, dxclusterTail2 d x =
      (if (source2Spots d).isEmpty then source3Spots x else source2Spots d) := by
    intro d x
    match d with
    | .fail => simpa [dxclusterTail2, source2Spots] using t3 x
    | .ok none => simpa [dxclusterTail2, source2Spots] using t3 x
    | .ok (some recs) =>
      match recs with
      | [] => simpa [dxclusterTail2, source2Spots] using t3 x
      | r :: rs =>
        have hne : (dxSummitMap (r :: rs)).isEmpty = false := rfl
        simp [dxclusterTail2, source2Spots, hne]
  intro h d x
  rw [h3]
  match h with
  | .fail =>
    show dxclusterTail2 d x = _
    simp only [source1Spots, List.isEmpty_nil, if_true]
    exact t2 d x
  | .ok text =>
    show (if (hamqthParse text.data).isEmpty then dxclusterTail2 d x
      else hamqthParse text.data) = _
    show _ = (if (hamqthParse text.data).isEmpty then _ else hamqthParse text.data)
    split
    · exact t2 d x
    · rfl

/-- C4 (counterexample): the DX Summit mapping emits a spot with the
sentinel frequency `"0.000"` — numerically `0`, not positive — for a
record with no frequency field. -/
theorem C4_counterexample :
    dxSummitMap [{}] =
      [{ freq := "0.000", call := "UNKNOWN", comment := "", time := "", spotter := "" }] ∧
    jsParseFloat "0.000".data = some 0 ∧ ¬ ((0 : ℚ) < 0) := by
  refine ⟨rfl, ?_, by norm_num⟩
  have h2 : takeSign (trimLeft "0.000".data) = (1, "0.000".data) := by decide
  have h : takeDigits "0.000".data 0 0 = (0, 1, ['.', '0', '0', '0']) := by decide
  have h3 : takeDigits ['0', '0', '0'] 0 0 = (0, 3, []) := by decide
  rw [jsParseFloat, h2]
  simp only [h, h3]
  norm_num

/-- C4 (amended): every spot the HamQTH parser emits passed the
positive-numeric-frequency check (its rendered `freq` is
`(f/1000).toFixed(3)` for some parsed `f > 0`), while the JSON parsers
substitute the sentinel `"0.000"` for an absent or falsy frequency, so
they can emit spots whose frequency is not positive. -/
theorem C4_frequency_invariant :
    (∀ (line : List Char) (s : Spot), hamqthLineSpot line = some s →
      ∃ f : ℚ, 0 < f ∧ s.freq = fmtFixed3 (f / 1000)) ∧
    (∀ (recs : List DxSummitRec) (s : Spot), s ∈ dxSummitMap recs →
      s.freq = "0.000" ∨ ∃ f : ℚ, f ≠ 0 ∧ s.freq = jsNumberToString f) := by
  constructor
  · intro line s h
    simp only [hamqthLineSpot] at h
    split at h
    · split at h
      · next freqNum heq =>
        split at h
        · next hc =>
          refine ⟨freqNum, hc.1, ?_⟩
          rw [← Option.some_inj.mp h]
        · exact absurd h (by simp)
      · exact absurd h (by simp)
    · exact absurd h (by simp)
  · intro recs s hs
    rw [dxSummitMap] at hs
    rcases List.mem_map.mp hs with ⟨r, _, rfl⟩
    rw [dxSummitSpot]
    cases hf : r.frequency with
    | none => exact Or.inl (by simp [hf])
    | some f =>
      by_cases h0 : f = 0
      · exact Or.inl (by simp [hf, h0])
      · exact Or.inr ⟨f, h0, by simp [hf, h0]⟩

/-- C4 witness: the sample line's spot, with `f = 7022`. -/
theorem C4_witness :
    ∃ f : ℚ, 0 < f ∧
      ({ freq := "7.022", call := "KP5/NP3VI", comment := "Up 2 Desecheo Island",
         time := "06:10z", spotter := "F5PAC" } : Spot).freq = fmtFixed3 (f / 1000) :=
  C4_frequency_invariant.1 hamqthSampleLine.data _ hamqthLineSpot_sample

/-! ## Claim theorems: the propagation estimator -/

/-- C5: `calculateBandReliability` computes exactly the spec's formulas:
`foF2 = 0.9·sqrt(ssn+15)·(1 + 0.4·cos((hour−12)·π/12))`,
`MUF = foF2·sqrt(1+distance/3500)·(1−|midLat|/200)·3.5`,
`LUF = 2 + (sfi/100)·dayNightFactor + kIndex·0.5`, and the three-branch
base reliability, post-processed by the storm/distance/high-band
factors and the final clamp. -/
theorem C5_reliability_formulas :
    ∀ freq distance midLat hour sfi ssn kIndex deLon dxLon : ℝ,
      foF2 ssn hour
          = 0.9 * Real.sqrt (ssn + 15) * (1 + 0.4 * Real.cos ((hour - 12) * Real.pi / 12)) ∧
      mufOf ssn hour distance midLat
          = foF2 ssn hour * Real.sqrt (1 + distance / 3500) * (1 - |midLat| / 200) * 3.5 ∧
      lufOf sfi kIndex hour deLon dxLon
          = 2 + sfi / 100 * dayNightOf hour deLon dxLon + kIndex * 0.5 ∧
      calculateBandReliability freq distance midLat hour sfi ssn kIndex deLon dxLon
          = min 99 (max 0 (highBandAdjust freq sfi (distanceAdjust distance (stormAdjust kIndex
              (baseReliability freq (mufOf ssn hour distance midLat)
                (lufOf sfi kIndex hour deLon dxLon)))))) ∧
      (∀ muf luf : ℝ,
        (freq > muf → baseReliability freq muf luf = max 0 (50 - (freq - muf) * 10)) ∧
        (¬ freq > muf → freq < luf →
          baseReliability freq muf luf = max 0 (50 - (luf - freq) * 15)) ∧
        (¬ freq > muf → ¬ freq < luf →
          baseReliability freq muf luf
            = 50 + (1 - |freq - (muf + luf) / 2| / (muf - luf)) * 45)) := by
  intro freq distance midLat hour sfi ssn kIndex deLon dxLon
  refine ⟨rfl, rfl, rfl, rfl, fun muf luf => ⟨?_, ?_, ?_⟩⟩
  · intro h1
    rw [baseReliability, if_pos h1]
  · intro h1 h2
    rw [baseReliability, if_neg h1, if_pos h2]
  · intro h1 h2
    rw [baseReliability, if_neg h1, if_neg h2]

/-- C5 witness: the above-MUF branch at `freq = 50`, `muf = 1`,
`luf = 0`. -/
theorem C5_witness :
    (50 : ℝ) > 1 ∧ baseReliability 50 1 0 = max 0 (50 - ((50 : ℝ) - 1) * 10) :=
  ⟨by norm_num,
   ((C5_reliability_formulas 50 0 0 0 0 0 0 0 0).2.2.2.2 1 0).1 (by norm_num)⟩

/-- Rounding the clamped reliability lands in `[0, 99]`. -/
lemma jsRoundR_clamp_bounds (x : ℝ) :
    0 ≤ jsRoundR (min 99 (max 0 x)) ∧ jsRoundR (min 99 (max 0 x)) ≤ 99 := by
  have h0 : (0 : ℝ) ≤ min 99 (max 0 x) := le_min (by norm_num) (le_max_left 0 x)
  have h99 : min 99 (max 0 x) ≤ 99 := min_le_left _ _
  constructor
  · rw [jsRoundR]
    exact Int.le_floor.mpr (by push_cast; linarith)
  · rw [jsRoundR]
    have : (⌊min 99 (max 0 x) + 1 / 2⌋ : ℤ) < 100 := Int.floor_lt.mpr (by push_cast; linarith)
    omega

/-- The rounded output of `calculateBandReliability` is always in
`[0, 99]`. -/
lemma jsRoundR_calc_bounds (freq distance midLat hour sfi ssn kIndex deLon dxLon : ℝ) :
    0 ≤ jsRoundR (calculateBandReliability freq distance midLat hour sfi ssn kIndex deLon dxLon) ∧
    jsRoundR (calculateBandReliability freq distance midLat hour sfi ssn kIndex deLon dxLon) ≤ 99 :=
  jsRoundR_clamp_bounds _

/-- C6: for every band frequency and all real-valued space-weather and
coordinate inputs, the per-band prediction list has exactly 24 entries,
the entry at index `i` carries `hour = i` (hours `0..23` in order, no
gaps), and every `reliability` is an integer in `[0, 99]`. -/
theorem C6_hourly_predictions_shape :
    ∀ freq distance midLat sfi ssn kIndex deLon dxLon : ℝ,
      (bandPredictions freq distance midLat sfi ssn kIndex deLon dxLon).length = 24 ∧
      ∀ i : ℕ, i < 24 →
        ∃ e : PredEntry,
          (bandPredictions freq distance midLat sfi ssn kIndex deLon dxLon).get? i = some e ∧
          e.hour = i ∧ 0 ≤ e.reliability ∧ e.reliability ≤ 99 := by
  intro freq distance midLat sfi ssn kIndex deLon dxLon
  constructor
  · simp [bandPredictions]
  · intro i hi
    have hg : (bandPredictions freq distance midLat sfi ssn kIndex deLon dxLon).get? i =
        some { hour := i
               reliability := jsRoundR
                 (calculateBandReliability freq distance midLat (i : ℝ) sfi ssn kIndex deLon dxLon)
               snr := calculateSNR
                 (calculateBandReliability freq distance midLat (i : ℝ) sfi ssn kIndex deLon dxLon) } := by
      rw [bandPredictions]
      simp [List.get?_eq_getElem?, List.getElem?_map, List.getElem?_range hi]
    exact ⟨_, hg, rfl,
      (jsRoundR_calc_bounds freq distance midLat (i : ℝ) sfi ssn kIndex deLon dxLon).1,
      (jsRoundR_calc_bounds freq distance midLat (i : ℝ) sfi ssn kIndex deLon dxLon).2⟩

/-- C6 witness: the hour-0 entry at a concrete input. -/
theorem C6_witness :
    ∃ e : PredEntry, (bandPredictions 14 0 0 150 100 2 0 0).get? 0 = some e ∧
      e.hour = 0 ∧ 0 ≤ e.reliability ∧ e.reliability ≤ 99 :=
  (C6_hourly_predictions_shape 14 0 0 150 100 2 0 0).2 0 (by norm_num)

/-! ## Storm-degradation analysis (claim C7) -/

/-- The storm bracket as a multiplicative factor. -/
noncomputable def stormFactor (kIndex : ℝ) : ℝ :=
  if kIndex ≥ 5 then 0.3 else if kIndex ≥ 4 then 0.6 else if kIndex ≥ 3 then 0.8 else 1

/-- The long-path bracket as a multiplicative factor. -/
noncomputable def distFactorAdj (distance : ℝ) : ℝ :=
  if distance > 15000 then 0.7 else if distance > 10000 then 0.85 else 1

/-- The high-band brackets as a multiplicative factor. -/
noncomputable def hbFactor (freq sfi : ℝ) : ℝ :=
  (if freq ≥ 21 ∧ sfi < 100 then sfi / 100 else 1) *
    (if freq ≥ 28 ∧ sfi < 120 then sfi / 120 else 1)

lemma stormAdjust_eq (kIndex r : ℝ) : stormAdjust kIndex r = r * stormFactor kIndex := by
  rw [stormAdjust, stormFactor]
  split_ifs <;> ring

lemma distanceAdjust_eq (distance r : ℝ) : distanceAdjust distance r = r * distFactorAdj distance := by
  rw [distanceAdjust, distFactorAdj]
  split_ifs <;> ring

lemma highBandAdjust_eq (freq sfi r : ℝ) : highBandAdjust freq sfi r = r * hbFactor freq sfi := by
  rw [highBandAdjust, hbFactor]
  split_ifs <;> ring

lemma distFactorAdj_pos (distance : ℝ) : 0 < distFactorAdj distance := by
  rw [distFactorAdj]; split_ifs <;> norm_num

lemma distFactorAdj_le_one (distance : ℝ) : distFactorAdj distance ≤ 1 := by
  rw [distFactorAdj]; split_ifs <;> norm_num

lemma hbFactor_bounds (freq sfi : ℝ) (hs : 0 ≤ sfi) :
    0 ≤ hbFactor freq sfi ∧ hbFactor freq sfi ≤ 1 := by
  rw [hbFactor]
  split_ifs with h1 h2 h2
  · constructor
    · positivity
    · have : sfi / 100 ≤ 1 := by linarith [h1.2]
      have : sfi / 120 ≤ 1 := by linarith [h2.2]
      nlinarith [div_nonneg hs (by norm_num : (0:ℝ) ≤ 100),
        div_nonneg hs (by norm_num : (0:ℝ) ≤ 120)]
  · constructor
    · positivity
    · have : sfi / 100 ≤ 1 := by linarith [h1.2]
      linarith
  · constructor
    · positivity
    · have : sfi / 120 ≤ 1 := by linarith [h2.2]
      linarith
  · norm_num

/-- In the in-window branch the midpoint term lies in `[0, 1/2]` (with
the `x/0 = 0` convention covering the degenerate `muf = luf` case). -/
lemma midterm_bounds (freq muf luf : ℝ) (h1 : freq ≤ muf) (h2 : luf ≤ freq) :
    0 ≤ |freq - (muf + luf) / 2| / (muf - luf) ∧
      |freq - (muf + luf) / 2| / (muf - luf) ≤ 1 / 2 := by
  rcases eq_or_lt_of_le (show luf ≤ muf by linarith) with heq | hlt
  · rw [← heq, sub_self, div_zero]
    norm_num
  · have hw : 0 < muf - luf := by linarith
    constructor
    · positivity
    · rw [div_le_iff hw]
      rw [abs_le]
      constructor <;> [linarith; linarith]

/-- The base reliability always lies in `[0, 95]`. -/
lemma baseReliability_bounds (freq muf luf : ℝ) :
    0 ≤ baseReliability freq muf luf ∧ baseReliability freq muf luf ≤ 95 := by
  rw [baseReliability]
  split_ifs with hm hl
  · exact ⟨le_max_left _ _, max_le (by norm_num) (by linarith)⟩
  · exact ⟨le_max_left _ _, max_le (by norm_num) (by linarith)⟩
  · have := midterm_bounds freq muf luf (by linarith) (by linarith)
    constructor <;> nlinarith [this.1, this.2]

/-- In the in-window branch the base reliability is at least `72.5`. -/
lemma baseReliability_mid_ge (freq muf luf : ℝ) (hm : ¬ freq > muf) (hl : ¬ freq < luf) :
    72.5 ≤ baseReliability freq muf luf := by
  rw [baseReliability, if_neg hm, if_neg hl]
  have := midterm_bounds freq muf luf (by linarith) (by linarith)
  nlinarith [this.1, this.2]

/-- Raising the LUF by `1.5` (the `kIndex` increase from 2 to 5) kills a
vanished base reliability. -/
lemma baseReliability_zero (freq muf luf : ℝ) (h : baseReliability freq muf luf = 0) :
    baseReliability freq muf (luf + 1.5) = 0 := by
  by_cases hm : freq > muf
  · rw [baseReliability, if_pos hm] at h ⊢
    exact h
  · by_cases hl : freq < luf
    · rw [baseReliability, if_neg hm, if_pos hl] at h
      have ht : 50 - (luf - freq) * 15 ≤ 0 := by
        by_contra hc
        push_neg at hc
        have := max_eq_right (le_of_lt hc)
        rw [this] at h
        linarith
      rw [baseReliability, if_neg hm, if_pos (by linarith : freq < luf + 1.5)]
      exact max_eq_left (by linarith)
    · have := baseReliability_mid_ge freq muf luf hm hl
      linarith

/-- Raising the LUF by `1.5` and multiplying by the `kIndex ≥ 5` storm
factor `0.3` strictly lowers a positive base reliability. -/
lemma baseReliability_storm_strict (freq muf luf : ℝ)
    (hpos : 0 < baseReliability freq muf luf) :
    0.3 * baseReliability freq muf (luf + 1.5) < baseReliability freq muf luf := by
  by_cases hm : freq > muf
  · have e2 : baseReliability freq muf luf = max 0 (50 - (freq - muf) * 10) := by
      rw [baseReliability, if_pos hm]
    have e5 : baseReliability freq muf (luf + 1.5) = max 0 (50 - (freq - muf) * 10) := by
      rw [baseReliability, if_pos hm]
    rw [e5, ← e2]
    linarith
  · by_cases hl : freq < luf
    · have e2 : baseReliability freq muf luf = max 0 (50 - (luf - freq) * 15) := by
        rw [baseReliability, if_neg hm, if_pos hl]
      have e5 : baseReliability freq muf (luf + 1.5) = max 0 (50 - (luf + 1.5 - freq) * 15) := by
        rw [baseReliability, if_neg hm, if_pos (by linarith : freq < luf + 1.5)]
      have hle : max (0:ℝ) (50 - (luf + 1.5 - freq) * 15) ≤ max 0 (50 - (luf - freq) * 15) :=
        max_le_max (le_refl 0) (by linarith)
      have hnn : (0:ℝ) ≤ max 0 (50 - (luf + 1.5 - freq) * 15) := le_max_left _ _
      rw [e5]
      rw [e2] at hpos ⊢
      linarith
    · have h2 := baseReliability_mid_ge freq muf luf hm hl
      have h5 := baseReliability_bounds freq muf (luf + 1.5)
      nlinarith [h5.1, h5.2]

/-- Comparison of the final clamped values: `≤` holds for any common
post-factor `C`. -/
lemma clamp_le (b2 b5 C : ℝ) (h2nn : 0 ≤ b2) (h5nn : 0 ≤ b5)
    (hzero : b2 = 0 → b5 = 0) (hstrict : 0 < b2 → 0.3 * b5 < b2) :
    min 99 (max 0 (0.3 * b5 * C)) ≤ min 99 (max 0 (b2 * C)) := by
  rcases le_or_lt C 0 with hC | hC
  · have hnp : 0.3 * b5 * C ≤ 0 := mul_nonpos_of_nonneg_of_nonpos (by linarith) hC
    rw [max_eq_left hnp, min_eq_right (by norm_num : (0:ℝ) ≤ 99)]
    exact le_min (by norm_num) (le_max_left _ _)
  · rcases eq_or_lt_of_le h2nn with hb2 | hb2
    · rw [← hb2, hzero hb2.symm]
      norm_num
    · have hs := hstrict hb2
      have hlt : 0.3 * b5 * C ≤ b2 * C := le_of_lt (mul_lt_mul_of_pos_right hs hC)
      exact min_le_min (le_refl _) (max_le_max (le_refl _) hlt)

/-- Comparison of the final clamped values: with `0 ≤ C ≤ 1` and a
positive clamped result for `kIndex = 2`, the inequality is strict. -/
lemma clamp_strict (b2 b5 C : ℝ) (h2nn : 0 ≤ b2) (h5nn : 0 ≤ b5)
    (h2le : b2 ≤ 95) (h5le : b5 ≤ 95)
    (hstrict : 0 < b2 → 0.3 * b5 < b2) (hCnn : 0 ≤ C) (hC1 : C ≤ 1)
    (hpos : 0 < min 99 (max 0 (b2 * C))) :
    min 99 (max 0 (0.3 * b5 * C)) < min 99 (max 0 (b2 * C)) := by
  have hb2C : 0 < b2 * C := by
    by_contra hneg
    push_neg at hneg
    rw [max_eq_left hneg] at hpos
    norm_num at hpos
  have hCpos : 0 < C := by nlinarith
  have hb2pos : 0 < b2 := by nlinarith
  have hs := hstrict hb2pos
  have hb2C95 : b2 * C ≤ 95 := by nlinarith
  have e2 : min 99 (max 0 (b2 * C)) = b2 * C := by
    rw [max_eq_right hb2C.le, min_eq_right (by linarith)]
  have h5C : 0.3 * b5 * C < b2 * C := mul_lt_mul_of_pos_right hs hCpos
  have e5 : max 0 (0.3 * b5 * C) = 0.3 * b5 * C := max_eq_right (by positivity)
  rw [e2, e5]
  exact lt_of_le_of_lt (min_le_right _ _) h5C

/-- The LUF shift from `kIndex = 2` to `kIndex = 5` is `+1.5`. -/
lemma lufOf_shift (sfi hour deLon dxLon : ℝ) :
    lufOf sfi 5 hour deLon dxLon = lufOf sfi 2 hour deLon dxLon + 1.5 := by
  rw [lufOf, lufOf]
  ring

/-- The estimator as base-times-factors, for a fixed `kIndex`. -/
lemma calculateBandReliability_decomp
    (freq distance midLat hour sfi ssn kIndex deLon dxLon : ℝ) :
    calculateBandReliability freq distance midLat hour sfi ssn kIndex deLon dxLon =
      min 99 (max 0
        (baseReliability freq (mufOf ssn hour distance midLat) (lufOf sfi kIndex hour deLon dxLon)
          * stormFactor kIndex * (distFactorAdj distance * hbFactor freq sfi))) := by
  show min 99 (max 0 (highBandAdjust freq sfi (distanceAdjust distance (stormAdjust kIndex
    (baseReliability freq (mufOf ssn hour distance midLat)
      (lufOf sfi kIndex hour deLon dxLon)))))) = _
  rw [stormAdjust_eq, distanceAdjust_eq, highBandAdjust_eq]
  ring_nf

/-- C7 (amended): raising `kIndex` from 2 to 5 never raises the
reliability, and strictly lowers it whenever `sfi ≥ 0` and the
`kIndex = 2` reliability is positive.  (When the reliability is already
0 — e.g. a frequency far above the MUF — both values are 0 and the
strict decrease of the original claim fails.) -/
theorem C7_kindex_storm_degradation :
    ∀ freq distance midLat hour sfi ssn deLon dxLon : ℝ,
      calculateBandReliability freq distance midLat hour sfi ssn 5 deLon dxLon ≤
        calculateBandReliability freq distance midLat hour sfi ssn 2 deLon dxLon ∧
      (0 ≤ sfi →
        0 < calculateBandReliability freq distance midLat hour sfi ssn 2 deLon dxLon →
        calculateBandReliability freq distance midLat hour sfi ssn 5 deLon dxLon <
          calculateBandReliability freq distance midLat hour sfi ssn 2 deLon dxLon) := by
  intro freq distance midLat hour sfi ssn deLon dxLon
  have hsf5 : stormFactor 5 = 0.3 := by rw [stormFactor, if_pos (by norm_num : (5:ℝ) ≥ 5)]
  have hsf2 : stormFactor 2 = 1 := by
    rw [stormFactor, if_neg (by norm_num : ¬ (2:ℝ) ≥ 5), if_neg (by norm_num : ¬ (2:ℝ) ≥ 4),
      if_neg (by norm_num : ¬ (2:ℝ) ≥ 3)]
  have hd5 := calculateBandReliability_decomp freq distance midLat hour sfi ssn 5 deLon dxLon
  have hd2 := calculateBandReliability_decomp freq distance midLat hour sfi ssn 2 deLon dxLon
  rw [hsf5] at hd5
  rw [hsf2] at hd2
  set muf := mufOf ssn hour distance midLat with hmuf
  set l2 := lufOf sfi 2 hour deLon dxLon with hl2
  have hshift : lufOf sfi 5 hour deLon dxLon = l2 + 1.5 := lufOf_shift sfi hour deLon dxLon
  rw [hshift] at hd5
  set b2 := baseReliability freq muf l2 with hb2
  set b5 := baseReliability freq muf (l2 + 1.5) with hb5
  set C := distFactorAdj distance * hbFactor freq sfi with hC
  have hb2bounds := baseReliability_bounds freq muf l2
  have hb5bounds := baseReliability_bounds freq muf (l2 + 1.5)
  have hzero : b2 = 0 → b5 = 0 := baseReliability_zero freq muf l2
  have hstrict : 0 < b2 → 0.3 * b5 < b2 := baseReliability_storm_strict freq muf l2
  have hd5' : calculateBandReliability freq distance midLat hour sfi ssn 5 deLon dxLon =
      min 99 (max 0 (0.3 * b5 * C)) := by
    rw [hd5]; ring_nf
  have hd2' : calculateBandReliability freq distance midLat hour sfi ssn 2 deLon dxLon =
      min 99 (max 0 (b2 * C)) := by
    rw [hd2]; ring_nf
  constructor
  · rw [hd5', hd2']
    exact clamp_le b2 b5 C hb2bounds.1 hb5bounds.1 hzero hstrict
  · intro hsfi hpos
    rw [hd2'] at hpos
    rw [hd5', hd2']
    have hhb := hbFactor_bounds freq sfi hsfi
    have hCnn : 0 ≤ C := by
      rw [hC]
      exact mul_nonneg (distFactorAdj_pos distance).le hhb.1
    have hC1 : C ≤ 1 := by
      rw [hC]
      calc distFactorAdj distance * hbFactor freq sfi
          ≤ 1 * hbFactor freq sfi := by
            exact mul_le_mul_of_nonneg_right (distFactorAdj_le_one distance) hhb.1
        _ ≤ 1 := by rw [one_mul]; exact hhb.2
    exact clamp_strict b2 b5 C hb2bounds.1 hb5bounds.1 hb2bounds.2 hb5bounds.2
      hstrict hCnn hC1 hpos

/-! ## Concrete evaluations of the estimator -/

lemma sqrt_twentyfive : Real.sqrt 25 = 5 := by
  rw [show (25:ℝ) = 5 ^ 2 by norm_num]
  exact Real.sqrt_sq (by norm_num)

lemma hourFactor_12 : hourFactor 12 = 1.4 := by
  rw [hourFactor, show ((12:ℝ) - 12) * Real.pi / 12 = 0 by ring, Real.cos_zero]
  norm_num

lemma hourFactor_16 : hourFactor 16 = 1.2 := by
  rw [hourFactor, show ((16:ℝ) - 12) * Real.pi / 12 = Real.pi / 3 by ring,
    Real.cos_pi_div_three]
  norm_num

lemma mufOf_E12 : mufOf 10 12 0 0 = 22.05 := by
  rw [mufOf, foF2, show (10:ℝ) + 15 = 25 by norm_num, sqrt_twentyfive, hourFactor_12,
    show (1:ℝ) + 0 / 3500 = 1 by norm_num, Real.sqrt_one, abs_zero]
  norm_num

lemma mufOf_E3 : mufOf 10 16 0 0 = 18.9 := by
  rw [mufOf, foF2, show (10:ℝ) + 15 = 25 by norm_num, sqrt_twentyfive, hourFactor_16,
    show (1:ℝ) + 0 / 3500 = 1 by norm_num, Real.sqrt_one, abs_zero]
  norm_num

lemma stormAdjust_zero (kIndex : ℝ) : stormAdjust kIndex 0 = 0 := by
  rw [stormAdjust]; split_ifs <;> ring

lemma distanceAdjust_zero (distance : ℝ) : distanceAdjust distance 0 = 0 := by
  rw [distanceAdjust]; split_ifs <;> ring

lemma highBandAdjust_zero (freq sfi : ℝ) : highBandAdjust freq sfi 0 = 0 := by
  rw [highBandAdjust]; split_ifs <;> ring

/-- At `freq = 50`, `hour = 12`, `ssn = 10`, `distance = midLat = 0` the
band frequency is far above the MUF (`22.05`), so the reliability is `0`
for every `kIndex`. -/
lemma calcRel_above_muf (kIndex : ℝ) :
    calculateBandReliability 50 0 0 12 150 10 kIndex 0 0 = 0 := by
  have hbase : baseReliability 50 (mufOf 10 12 0 0) (lufOf 150 kIndex 12 0 0) = 0 := by
    rw [mufOf_E12, baseReliability, if_pos (by norm_num : (50:ℝ) > 22.05)]
    exact max_eq_left (by norm_num)
  show min 99 (max 0 (highBandAdjust 50 150 (distanceAdjust 0 (stormAdjust kIndex
    (baseReliability 50 (mufOf 10 12 0 0) (lufOf 150 kIndex 12 0 0)))))) = 0
  rw [hbase, stormAdjust_zero, distanceAdjust_zero, highBandAdjust_zero]
  norm_num

/-- C7 (counterexample): at a frequency far above the MUF both
reliabilities are `0`, so raising `kIndex` from 2 to 5 does *not*
strictly decrease the result. -/
theorem C7_counterexample :
    ¬ (calculateBandReliability 50 0 0 12 150 10 5 0 0 <
       calculateBandReliability 50 0 0 12 150 10 2 0 0) := by
  rw [calcRel_above_muf 5, calcRel_above_muf 2]
  exact lt_irrefl 0

lemma jsMod_36_24 : jsMod 36 24 = 12 := by
  have hf : (⌊(36:ℝ)/24⌋ : ℤ) = 1 := by norm_num
  rw [jsMod, jsTrunc, if_pos (by norm_num : (0:ℝ) ≤ 36/24), hf]
  norm_num

lemma jsMod_40_24 : jsMod 40 24 = 16 := by
  have hf : (⌊(40:ℝ)/24⌋ : ℤ) = 1 := by norm_num
  rw [jsMod, jsTrunc, if_pos (by norm_num : (0:ℝ) ≤ 40/24), hf]
  norm_num

lemma dayNightOf_16 : dayNightOf 16 0 0 = 1.5 := by
  rw [dayNightOf, if_pos]
  rw [isDaytime, show (16:ℝ) + ((0:ℝ) + 0) / 2 / 15 + 24 = 40 by norm_num, jsMod_40_24]
  norm_num

lemma lufOf_E3 : lufOf 114 2 16 0 0 = 4.71 := by
  rw [lufOf, dayNightOf_16]
  norm_num

/-- At `freq = 7` (40 m), `hour = 16`, `sfi = 114`, `ssn = 10`,
`kIndex = 2`, zero distance and mid-latitude, the in-window branch gives
the exact reliability `75455/946 ≈ 79.76`. -/
lemma calcRel_E3 :
    calculateBandReliability 7 0 0 16 114 10 2 0 0 = 75455 / 946 := by
  have hbase : baseReliability 7 (mufOf 10 16 0 0) (lufOf 114 2 16 0 0) = 75455 / 946 := by
    rw [mufOf_E3, lufOf_E3, baseReliability, if_neg (by norm_num : ¬ (7:ℝ) > 18.9),
      if_neg (by norm_num : ¬ (7:ℝ) < 4.71),
      show (7:ℝ) - ((18.9:ℝ) + 4.71) / 2 = -4.805 by norm_num, abs_of_neg (by norm_num)]
    norm_num
  have hsa : stormAdjust 2 (75455 / 946 : ℝ) = 75455 / 946 := by
    rw [stormAdjust, if_neg (by norm_num : ¬ (2:ℝ) ≥ 5), if_neg (by norm_num : ¬ (2:ℝ) ≥ 4),
      if_neg (by norm_num : ¬ (2:ℝ) ≥ 3)]
  have hda : distanceAdjust 0 (75455 / 946 : ℝ) = 75455 / 946 := by
    rw [distanceAdjust, if_neg (by norm_num : ¬ (0:ℝ) > 15000),
      if_neg (by norm_num : ¬ (0:ℝ) > 10000)]
  have hha : highBandAdjust 7 114 (75455 / 946 : ℝ) = 75455 / 946 := by
    rw [highBandAdjust]
    rw [if_neg (by norm_num : ¬ ((7:ℝ) ≥ 21 ∧ (114:ℝ) < 100))]
    rw [if_neg (by norm_num : ¬ ((7:ℝ) ≥ 28 ∧ (114:ℝ) < 120))]
  show min 99 (max 0 (highBandAdjust 7 114 (distanceAdjust 0 (stormAdjust 2
    (baseReliability 7 (mufOf 10 16 0 0) (lufOf 114 2 16 0 0)))))) = 75455 / 946
  rw [hbase, hsa, hda, hha, max_eq_right (by norm_num : (0:ℝ) ≤ 75455 / 946),
    min_eq_right (by norm_num : (75455 / 946 : ℝ) ≤ 99)]

/-- C7 witness: at the `calcRel_E3` input the `kIndex = 2` reliability
is positive and the storm degradation strictly lowers it. -/
theorem C7_witness :
    (0:ℝ) ≤ 114 ∧
    0 < calculateBandReliability 7 0 0 16 114 10 2 0 0 ∧
    calculateBandReliability 7 0 0 16 114 10 5 0 0 <
      calculateBandReliability 7 0 0 16 114 10 2 0 0 :=
  ⟨by norm_num, by rw [calcRel_E3]; norm_num,
   (C7_kindex_storm_degradation 7 0 0 16 114 10 0 0).2 (by norm_num)
     (by rw [calcRel_E3]; norm_num)⟩

/-! ## Sortedness and stability of `currentBands` (claim C8) -/

lemma mem_insertBS (x z : BandSummary) (l : List BandSummary) :
    z ∈ insertBS x l ↔ z = x ∨ z ∈ l := by
  induction l with
  | nil => simp [insertBS]
  | cons y ys ih =>
    rw [insertBS]
    split
    · simp [List.mem_cons]
    · simp only [List.mem_cons, ih]
      tauto

/-- Inserting an element whose enumeration frequency is below everything
present preserves the sorted-and-stable invariant. -/
lemma pairwise_insertBS (x : BandSummary) (l : List BandSummary)
    (hl : l.Pairwise fun a b => b.reliability ≤ a.reliability ∧
      (a.reliability = b.reliability → a.freq < b.freq))
    (hx : ∀ y ∈ l, x.freq < y.freq) :
    (insertBS x l).Pairwise fun a b => b.reliability ≤ a.reliability ∧
      (a.reliability = b.reliability → a.freq < b.freq) := by
  induction l with
  | nil => simp [insertBS]
  | cons y ys ih =>
    rcases List.pairwise_cons.mp hl with ⟨hy, hys⟩
    rw [insertBS]
    split
    · next hcond =>
      refine List.Pairwise.cons ?_ hl
      intro z hz
      rcases List.mem_cons.mp hz with rfl | hz'
      · exact ⟨hcond, fun _ => hx z (List.mem_cons_self _ _)⟩
      · refine ⟨le_trans (hy z hz').1 hcond, fun _ => hx z (List.mem_cons_of_mem _ hz')⟩
    · next hcond =>
      have hlt : x.reliability < y.reliability := not_le.mp hcond
      refine List.Pairwise.cons ?_ (ih hys fun z hz => hx z (List.mem_cons_of_mem _ hz))
      intro z hz
      rcases (mem_insertBS x z ys).mp hz with rfl | hz'
      · exact ⟨le_of_lt hlt, fun he => ((lt_irrefl _ (he ▸ hlt)).elim)⟩
      · exact hy z hz'

lemma mem_sortBS (z : BandSummary) (l : List BandSummary) :
    z ∈ sortByReliability l ↔ z ∈ l := by
  induction l with
  | nil => simp [sortByReliability]
  | cons x xs ih =>
    rw [sortByReliability, mem_insertBS, ih, List.mem_cons]

/-- A list whose enumeration frequencies strictly increase sorts into a
descending-by-reliability list whose ties keep the enumeration order. -/
lemma pairwise_sortBS (l : List BandSummary)
    (h : l.Pairwise fun a b => a.freq < b.freq) :
    (sortByReliability l).Pairwise fun a b => b.reliability ≤ a.reliability ∧
      (a.reliability = b.reliability → a.freq < b.freq) := by
  induction l with
  | nil => simp [sortByReliability]
  | cons x xs ih =>
    rcases List.pairwise_cons.mp h with ⟨hx, hxs⟩
    rw [sortByReliability]
    exact pairwise_insertBS x _ (ih hxs) fun y hy => hx y ((mem_sortBS y xs).mp hy)

/-- C8: `currentBands` is sorted descending by `reliability`, and any
two entries with equal reliability appear in ascending band-frequency
order, i.e. in the fixed band enumeration order (the comparator returns
`0` on ties and ECMAScript `sort` is stable). -/
theorem C8_currentBands_sorted :
    ∀ (currentHour : ℕ) (distance midLat sfi ssn kIndex deLon dxLon : ℝ),
      (currentBands currentHour distance midLat sfi ssn kIndex deLon dxLon).Pairwise
        fun a b => b.reliability ≤ a.reliability ∧
          (a.reliability = b.reliability → a.freq < b.freq) := by
  intro currentHour distance midLat sfi ssn kIndex deLon dxLon
  rw [currentBands]
  apply pairwise_sortBS
  rw [List.pairwise_map]
  norm_num [bandsList, bandFreqsList, List.pairwise_cons]

/-! ## SNR label versus rounded reliability (claim C9) -/

/-- The prediction entry at index `i < 24`: `hour = i`, `reliability`
rounded, `snr` computed from the *unrounded* reliability. -/
lemma bandPredictions_get?_eq (freq distance midLat sfi ssn kIndex deLon dxLon : ℝ)
    (i : ℕ) (hi : i < 24) :
    (bandPredictions freq distance midLat sfi ssn kIndex deLon dxLon).get? i =
      some { hour := i
             reliability := jsRoundR
               (calculateBandReliability freq distance midLat (i : ℝ) sfi ssn kIndex deLon dxLon)
             snr := calculateSNR
               (calculateBandReliability freq distance midLat (i : ℝ) sfi ssn kIndex deLon dxLon) } := by
  rw [bandPredictions]
  simp [List.get?_eq_getElem?, List.getElem?_map, List.getElem?_range hi]

/-- C9: each hourly entry's `snr` label is `calculateSNR` of the
unrounded reliability while its `reliability` field is the rounded
value; at `freq = 7`, `hour = 16`, `sfi = 114`, `ssn = 10`, `kIndex = 2`
the unrounded value is `75455/946 ∈ [79.5, 80)`, so the stored label is
`"+10dB"` although the SNR mapping applied to the stored (rounded)
reliability `80` gives `"+20dB"`. -/
theorem C9_snr_label_mismatch :
    (∀ (freq distance midLat sfi ssn kIndex deLon dxLon : ℝ) (i : ℕ), i < 24 →
      (bandPredictions freq distance midLat sfi ssn kIndex deLon dxLon).get? i =
        some { hour := i
               reliability := jsRoundR
                 (calculateBandReliability freq distance midLat (i : ℝ) sfi ssn kIndex deLon dxLon)
               snr := calculateSNR
                 (calculateBandReliability freq distance midLat (i : ℝ) sfi ssn kIndex deLon dxLon) }) ∧
    (((bandPredictions 7 0 0 114 10 2 0 0).get? 16).getD ⟨0, 0, ""⟩).snr = "+10dB" ∧
    calculateSNR
      (((((bandPredictions 7 0 0 114 10 2 0 0).get? 16).getD ⟨0, 0, ""⟩).reliability : ℤ) : ℝ)
      = "+20dB" := by
  refine ⟨fun freq distance midLat sfi ssn kIndex deLon dxLon i hi =>
    bandPredictions_get?_eq freq distance midLat sfi ssn kIndex deLon dxLon i hi, ?_, ?_⟩
  all_goals
    have hg := bandPredictions_get?_eq 7 0 0 114 10 2 0 0 16 (by norm_num)
    have hr : calculateBandReliability 7 0 0 ((16:ℕ) : ℝ) 114 10 2 0 0 = 75455 / 946 := by
      rw [show (((16:ℕ):ℝ)) = 16 by norm_num, calcRel_E3]
    rw [hg, Option.getD_some]
  · show calculateSNR (calculateBandReliability 7 0 0 ((16:ℕ) : ℝ) 114 10 2 0 0) = "+10dB"
    rw [hr, calculateSNR, if_neg (by norm_num : ¬ (75455 / 946 : ℝ) ≥ 80),
      if_pos (by norm_num : (75455 / 946 : ℝ) ≥ 60)]
  · show calculateSNR
      ((jsRoundR (calculateBandReliability 7 0 0 ((16:ℕ) : ℝ) 114 10 2 0 0) : ℤ) : ℝ) = "+20dB"
    have hround : jsRoundR ((75455 : ℝ) / 946) = 80 := by
      rw [jsRoundR]; norm_num
    rw [hr, hround, calculateSNR, if_pos (by norm_num : ((80:ℤ) : ℝ) ≥ 80)]

/-- C9 witness: the structural half at hour 0 of a concrete input. -/
theorem C9_witness :
    0 < 24 ∧
    (bandPredictions 1 0 0 0 0 0 0 0).get? 0 =
      some { hour := 0
             reliability := jsRoundR (calculateBandReliability 1 0 0 ((0:ℕ) : ℝ) 0 0 0 0 0)
             snr := calculateSNR (calculateBandReliability 1 0 0 ((0:ℕ) : ℝ) 0 0 0 0 0) } :=
  ⟨by norm_num, C9_snr_label_mismatch.1 1 0 0 0 0 0 0 0 0 (by norm_num)⟩
